import Mathlib

/-!
Shallow embedding of the mach-ipc framework (message-id codec, free-list
pool, ack registry, receive-loop dispatch, client/server send paths,
broadcast, resource tracker, indexed thread-safe pool), translated from
the C sources, together with theorems settling the specification claims.

Pointers are modelled as `Nat` identities (`Option Nat` where NULL is a
possible value), machine integers as `Nat`/`Int`, and kernel side effects
(`vm_deallocate`, `event_destroy`) as explicit effect lists returned by
the modelled functions.
-/

set_option maxRecDepth 4000

namespace MachIpc

/- ====================================================================
   Message-ID codec (src/include/mach_ipc.h, src/src/internal.h)
   ==================================================================== -/

/-- The macro `INTERNAL_MSG_MAGIC = 0x875UL << 20`. -/
def INTERNAL_MSG_MAGIC : Nat := 0x875 <<< 20

/-- The flag `INTERNAL_FEATURE_ITRN = 1UL << 8`. -/
def INTERNAL_FEATURE_ITRN : Nat := 1 <<< 8

/-- The flag `INTERNAL_FEATURE_WACK = 1UL << 9`. -/
def INTERNAL_FEATURE_WACK : Nat := 1 <<< 9

/-- The flag `INTERNAL_FEATURE_IACK = 1UL << 10`. -/
def INTERNAL_FEATURE_IACK : Nat := 1 <<< 10

/-- The macro `IS_THIS_PROTOCOL_MSG(id) = ((id & (0xFFFUL << 20)) == INTERNAL_MSG_MAGIC)`. -/
def IS_THIS_PROTOCOL_MSG (id : Nat) : Bool :=
  (id &&& (0xFFF <<< 20)) == INTERNAL_MSG_MAGIC

/-- The macro `HAS_FEATURE_ITRN(id) = ((id & INTERNAL_FEATURE_ITRN) != 0)`. -/
def HAS_FEATURE_ITRN (id : Nat) : Bool :=
  (id &&& INTERNAL_FEATURE_ITRN) != 0

/-- The macro `HAS_FEATURE_WACK(id) = ((id & INTERNAL_FEATURE_WACK) != 0)`. -/
def HAS_FEATURE_WACK (id : Nat) : Bool :=
  (id &&& INTERNAL_FEATURE_WACK) != 0

/-- The macro `HAS_FEATURE_IACK(id) = ((id & INTERNAL_FEATURE_IACK) != 0)`. -/
def HAS_FEATURE_IACK (id : Nat) : Bool :=
  (id &&& INTERNAL_FEATURE_IACK) != 0

/-- The macro `SET_FEATURE(id, feat) = (id | feat)`. -/
def SET_FEATURE (id feat : Nat) : Nat := id ||| feat

/-- The macro `UNSET_FEATURE(id, feat) = (id & ~feat)`: complement taken in 32 bits. -/
def UNSET_FEATURE (id feat : Nat) : Nat := id &&& (feat ^^^ 0xFFFFFFFF)

/-- The macro `EXTERNAL_MSG_ID(type) = (INTERNAL_MSG_MAGIC | type)` - no masking of `type`. -/
def EXTERNAL_MSG_ID (t : Nat) : Nat := INTERNAL_MSG_MAGIC ||| t

/-- The macro `MSG_ID_USER(type) = EXTERNAL_MSG_ID(type)`. -/
def MSG_ID_USER (t : Nat) : Nat := EXTERNAL_MSG_ID t

/- ====================================================================
   Status and kern_return_t constants
   ==================================================================== -/

def KERN_SUCCESS : Int := 0
def KERN_INVALID_ARGUMENT : Int := 4
def KERN_FAILURE : Int := 5
def KERN_OPERATION_TIMED_OUT : Int := 49

def IPC_SUCCESS : Int := 0
def IPC_ERROR_INVALID_PARAM : Int := -1
def IPC_ERROR_NO_MEMORY : Int := -2
def IPC_ERROR_NOT_CONNECTED : Int := -3
def IPC_ERROR_TIMEOUT : Int := -4
def IPC_ERROR_SEND_FAILED : Int := -5
def IPC_ERROR_INTERNAL : Int := -6
def IPC_ERROR_CLIENT_FULL : Int := -7

/- ====================================================================
   Free-list pool (src/src/pool.c)

   `data`, `next`, `used` are the backing arrays (length = capacity for a
   well-formed pool); indices are C `int`s, modelled as `Int`.
   ==================================================================== -/

structure Pool (alpha : Type) where
  capacity : Nat
  data : List alpha
  next : List Int
  free_head : Int
  used : List Bool
deriving Repr, DecidableEq

/-- Function `pool_push`: take `free_head` as the slot, advance the free list, mark
used; copy `value` into the slot only when non-NULL. Returns `-1` and the
unchanged pool when full. -/
def pool_push {alpha : Type} (p : Pool alpha) (value : Option alpha) : Int × Pool alpha :=
  if p.free_head = -1 then (-1, p)
  else
    let i := p.free_head.toNat
    let p1 : Pool alpha :=
      { p with
        free_head := p.next.getD i (-1)
        data := match value with
                | some v => p.data.set i v
                | none => p.data
        used := p.used.set i true }
    (p.free_head, p1)

/-- Function `pool_pop`: no-op on an out-of-range or unused index; otherwise clear
`used`, link the slot back into the free list, move `free_head`. -/
def pool_pop {alpha : Type} (p : Pool alpha) (index : Int) : Pool alpha :=
  if index < 0 ∨ (p.capacity : Int) ≤ index ∨ p.used.getD index.toNat false = false then p
  else
    { p with
      used := p.used.set index.toNat false
      next := p.next.set index.toNat p.free_head
      free_head := index }

/-- Function `pool_get`: NULL on an out-of-range or unused index, otherwise a
pointer to the slot's data (modelled as the stored value). -/
def pool_get {alpha : Type} (p : Pool alpha) (index : Int) : Option alpha :=
  if index < 0 ∨ (p.capacity : Int) ≤ index ∨ p.used.getD index.toNat false = false then none
  else p.data.get? index.toNat

/-- Function `pool_is_active`: in range and `used`. -/
def pool_is_active {alpha : Type} (p : Pool alpha) (index : Int) : Bool :=
  decide (0 ≤ index) && decide (index < (p.capacity : Int)) && p.used.getD index.toNat false

/-- Raw write through a pointer to a slot (no validity guard, as in C). -/
def pool_write {alpha : Type} (p : Pool alpha) (index : Int) (v : alpha) : Pool alpha :=
  { p with data := p.data.set index.toNat v }

/-- Raw read through a pointer to a slot (no validity guard, as in C). -/
def pool_read {alpha : Type} [Inhabited alpha] (p : Pool alpha) (index : Int) : alpha :=
  p.data.getD index.toNat default

/- ====================================================================
   Ack registry (src/src/protocol.c, src/src/internal.h)

   `ack_waiter_t`: events are modelled by `Nat` identities; the reply
   pointers by `Option Nat` (NULL = `none`).
   ==================================================================== -/

structure AckWaiter where
  correlation_id : Nat
  event : Nat
  reply_payload : Option Nat
  reply_size : Nat
  reply_user_payload : Option Nat
  reply_user_size : Nat
  received : Bool
  cancelled : Bool
deriving Repr, DecidableEq, Inhabited

/-- Outcome of `register_ack_waiter` (protocol.c:110-161). `ok = false`
covers: `correlation_id == 0`, pool full, `pool_get` NULL, and
`event_create` failure (`eventOk = false`); in the last two cases the
freshly pushed slot is popped again. -/
structure RegResult where
  ok : Bool
  pool : Pool AckWaiter
  slot : Int
deriving Repr, DecidableEq

def register_ack_waiter (p : Pool AckWaiter) (correlation_id : Nat)
    (eventOk : Bool) (evt : Nat) : RegResult :=
  if correlation_id = 0 then ⟨false, p, -1⟩
  else
    let pr := pool_push p none
    if pr.1 = -1 then ⟨false, pr.2, -1⟩
    else
      match pool_get pr.2 pr.1 with
      | none => ⟨false, pool_pop pr.2 pr.1, -1⟩
      | some _ =>
        if eventOk = false then ⟨false, pool_pop pr.2 pr.1, -1⟩
        else
          ⟨true,
           pool_write pr.2 pr.1
             { correlation_id := correlation_id
               event := evt
               reply_payload := none
               reply_size := 0
               reply_user_payload := none
               reply_user_size := 0
               received := false
               cancelled := false },
           pr.1⟩

/-- State of `protocol_send_with_ack` when it returns early (before the
`event_wait_timeout`), or parks on the wait (protocol.c:180-213).
`sent` records whether `protocol_send_message` was invoked; `destroyed`
lists the events passed to `event_destroy`; `earlyReturn = none` means
the function reached the wait, holding `slot`. -/
structure PrewaitResult where
  pool : Pool AckWaiter
  nextCid : Nat
  sent : Bool
  destroyed : List Nat
  earlyReturn : Option Int
  slot : Int
  cid : Nat
deriving Repr, DecidableEq

/-- protocol.c:180-213: assign the correlation id, register the waiter
(`KERN_FAILURE` without sending on registration failure), send
(`sendResult` is the transport's verdict; on failure destroy the event,
pop the slot, and return the transport error), otherwise park on the
event wait. -/
def send_with_ack_prewait (p : Pool AckWaiter) (next_correlation_id : Nat)
    (eventOk : Bool) (evt : Nat) (sendResult : Int) : PrewaitResult :=
  let correlation_id := next_correlation_id
  let r := register_ack_waiter p correlation_id eventOk evt
  if r.ok = false then
    ⟨r.pool, next_correlation_id + 1, false, [], some KERN_FAILURE, -1, correlation_id⟩
  else if sendResult ≠ KERN_SUCCESS then
    ⟨pool_pop r.pool r.slot, next_correlation_id + 1, true,
     [(pool_read r.pool r.slot).event], some sendResult, -1, correlation_id⟩
  else
    ⟨r.pool, next_correlation_id + 1, true, [], none, r.slot, correlation_id⟩

/-- Outcome of the critical section of `protocol_send_with_ack` after the
event wait (protocol.c:217-264). `released` lists the
`(pointer, size)` pairs passed to `vm_deallocate` by the sender. -/
structure WakeResult where
  result : Int
  pool : Pool AckWaiter
  ack_payload : Option Nat
  ack_size : Nat
  ack_user_payload : Option Nat
  ack_user_size : Nat
  released : List (Nat × Nat)
  destroyed : List Nat
deriving Repr, DecidableEq

/-- protocol.c:217-264: under the ack lock, re-check
`got_reply && waiter->received && !waiter->cancelled`. On success extract
the reply fields. Otherwise set `cancelled := true`, release any reply
that raced in (`waiter->received && waiter->reply_payload`, plus the user
payload when non-NULL with non-zero size), and report the timeout. Both
paths destroy the event and pop the waiter slot. -/
def ack_wake (p : Pool AckWaiter) (slot : Int) (got_reply : Bool) : WakeResult :=
  let w := pool_read p slot
  if got_reply && w.received && !w.cancelled then
    { result := KERN_SUCCESS
      pool := pool_pop p slot
      ack_payload := w.reply_payload
      ack_size := w.reply_size
      ack_user_payload := w.reply_user_payload
      ack_user_size := w.reply_user_size
      released := []
      destroyed := [w.event] }
  else
    let p1 := pool_write p slot { w with cancelled := true }
    let released :=
      if w.received = true ∧ w.reply_payload ≠ none then
        (w.reply_payload.getD 0, w.reply_size) ::
          (if w.reply_user_payload ≠ none ∧ w.reply_user_size ≠ 0 then
            [(w.reply_user_payload.getD 0, w.reply_user_size)]
          else [])
      else []
    { result := KERN_OPERATION_TIMED_OUT
      pool := pool_pop p1 slot
      ack_payload := none
      ack_size := 0
      ack_user_payload := none
      ack_user_size := 0
      released := released
      destroyed := [(pool_read p1 slot).event] }

/-- An incoming ack message as seen by `handle_ack_message`: the protocol
payload pointer, the correlation id read from it, its size, and the user
payload pointer and size. -/
structure AckMsg where
  payload_ptr : Nat
  cid : Nat
  payload_size : Nat
  user_ptr : Option Nat
  user_size : Nat
deriving Repr, DecidableEq

/-- protocol.c:316-325: linear scan for the first active slot whose
waiter carries the ack's correlation id. -/
def find_matching_waiter (p : Pool AckWaiter) (cid : Nat) : Option Nat :=
  (List.range p.capacity).find?
    (fun i => pool_is_active p (i : Int) && ((p.data.getD i default).correlation_id == cid))

/-- protocol.c:297-360: reject a zero correlation id, an unknown
correlation id, and a cancelled waiter (`false` = the caller must release
the payload); otherwise store the reply fields into the waiter, mark it
`received`, signal its event, and accept ownership (`true`). -/
def handle_ack_message (p : Pool AckWaiter) (m : AckMsg) : Bool × Pool AckWaiter :=
  if m.cid = 0 then (false, p)
  else
    match find_matching_waiter p m.cid with
    | none => (false, p)
    | some i =>
      let w := p.data.getD i default
      if w.cancelled then (false, p)
      else
        (true,
         pool_write p (i : Int)
           { w with
             reply_payload := some m.payload_ptr
             reply_size := m.payload_size
             reply_user_payload := m.user_ptr
             reply_user_size := m.user_size
             received := true })

/- ====================================================================
   Receive-loop per-message dispatch (protocol.c:362-453)
   ==================================================================== -/

/-- The size `sizeof(internal_payload_t)` for `{uint32_t; uint64_t; int32_t}`
under the LP64 ABI: offsets 0, 8, 16, size 24. -/
def sizeof_internal_payload : Nat := 24

/-- One received message, as the loop body inspects it. -/
structure RcvMsg where
  msgh_id : Nat
  descriptor_count : Nat
  payload_is_ool : Bool
  payload_ptr : Option Nat
  payload_size : Nat
  user_ptr : Option Nat
  user_size : Nat
deriving Repr, DecidableEq

/-- What the loop body does with one successfully received message. -/
inductive RcvStep where
  /-- not our magic: handler invoked with a NULL protocol payload -/
  | passNative : RcvStep
  /-- validation failed: `continue` without invoking the handler -/
  | discard : RcvStep
  /-- `IACK` set: routed to `handle_ack_message` -/
  | ackPath : RcvStep
  /-- regular protocol message: handler invoked with the payload -/
  | handlerPath : RcvStep
deriving Repr, DecidableEq

/-- protocol.c:398-443: magic check, `msgh_descriptor_count < 2` check,
OOL-descriptor check, payload pointer/size check, then `IACK` routing
versus handler dispatch. -/
def receive_classify (m : RcvMsg) : RcvStep :=
  if IS_THIS_PROTOCOL_MSG m.msgh_id = false then .passNative
  else if m.descriptor_count < 2 then .discard
  else if m.payload_is_ool = false then .discard
  else if m.payload_ptr = none ∨ m.payload_size < sizeof_internal_payload then .discard
  else if HAS_FEATURE_IACK m.msgh_id then .ackPath
  else .handlerPath

/-- A protocol message with the magic, three descriptors, a valid OOL
payload and no `IACK`: the loop passes it to the handler even though the
descriptor count is not exactly 2. -/
def rcvMsgThreeDesc : RcvMsg :=
  { msgh_id := MSG_ID_USER 7
    descriptor_count := 3
    payload_is_ool := true
    payload_ptr := some 1
    payload_size := sizeof_internal_payload
    user_ptr := none
    user_size := 0 }

/- ====================================================================
   Client send paths (src/src/client.c:394-496)
   ==================================================================== -/

/-- The connection state of a client runtime; the remaining fields of
`struct mach_client` do not affect the guards under study. -/
structure ClientState where
  connected : Bool
deriving Repr, DecidableEq

/-- client.c:394-422: `NOT_CONNECTED` for a NULL or unconnected client,
then a one-way send whose kernel verdict (`sendKr`) is mapped to
`IPC_SUCCESS` / `IPC_ERROR_SEND_FAILED`. -/
def mach_client_send (client : Option ClientState) (sendKr : Int) : Int :=
  match client with
  | none => IPC_ERROR_NOT_CONNECTED
  | some c =>
    if c.connected = false then IPC_ERROR_NOT_CONNECTED
    else if sendKr = KERN_SUCCESS then IPC_SUCCESS else IPC_ERROR_SEND_FAILED

/-- client.c:424-496: guard
`!client || !client->connected || !reply_data || !reply_size`
returns `IPC_ERROR_INVALID_PARAM`; afterwards the verdict of
`protocol_send_with_ack` (`kr`, the ack payload/status/sizes) is mapped
to the framework taxonomy. -/
def mach_client_send_with_reply (client : Option ClientState)
    (reply_data_ok reply_size_ok : Bool) (kr : Int)
    (ack_payload : Option Nat) (ackStatus : Int) (ack_size : Nat)
    (ack_user_payload : Option Nat) (ack_user_size : Nat) : Int :=
  match client with
  | none => IPC_ERROR_INVALID_PARAM
  | some c =>
    if c.connected = false ∨ reply_data_ok = false ∨ reply_size_ok = false then
      IPC_ERROR_INVALID_PARAM
    else
      let is_ack_status := ack_payload.isSome && ack_size != 0
      if ack_user_payload.isSome && ack_user_size != 0 then
        if kr = KERN_SUCCESS then
          (if is_ack_status then ackStatus else IPC_SUCCESS)
        else if kr = KERN_OPERATION_TIMED_OUT then IPC_ERROR_TIMEOUT
        else IPC_ERROR_SEND_FAILED
      else
        if kr = KERN_SUCCESS then
          (if is_ack_status then ackStatus else IPC_SUCCESS)
        else if kr = KERN_OPERATION_TIMED_OUT then IPC_ERROR_TIMEOUT
        else IPC_ERROR_SEND_FAILED

/- ====================================================================
   Server broadcast (src/src/utils.c:64-96)
   ==================================================================== -/

/-- One slot of the server's client table, as broadcast inspects it. -/
structure ClientInfoS where
  id : Nat
  active : Bool
deriving Repr, DecidableEq

/-- The server's client table (`clients[MAX_CLIENTS]`, NULL slots are
`none`). -/
structure ServerState where
  clients : List (Option ClientInfoS)
deriving Repr, DecidableEq

/-- utils.c:76-84: under the clients lock, copy every non-NULL active
slot into the local snapshot, in table order. -/
def broadcast_snapshot (clients : List (Option ClientInfoS)) : List ClientInfoS :=
  clients.filterMap (fun oc =>
    match oc with
    | some c => if c.active then some c else none
    | none => none)

/-- utils.c:64-96: `INVALID_PARAM` on a NULL server; otherwise snapshot,
then send to every snapshotted client (`sendStatus` is the per-client
verdict of `mach_server_send`), keeping the last non-success status.
Returns the final status together with the list of clients sent to, in
send order. -/
def mach_server_broadcast (server : Option ServerState)
    (sendStatus : ClientInfoS → Int) : Int × List ClientInfoS :=
  match server with
  | none => (IPC_ERROR_INVALID_PARAM, [])
  | some s =>
    let snap := broadcast_snapshot s.clients
    let result := snap.foldl
      (fun acc c => if sendStatus c ≠ IPC_SUCCESS then sendStatus c else acc)
      IPC_SUCCESS
    (result, snap)

/- ====================================================================
   Resource tracker (src/src/resources.c)
   ==================================================================== -/

/-- The enum `resource_type_t` (internal.h:111-119). -/
inductive ResType where
  | port : ResType
  | memory : ResType
  | queue : ResType
  | thread : ResType
  | mutex : ResType
  | pool : ResType
  | custom : ResType
deriving Repr, DecidableEq

/-- One `tracked_resource_t`: the resource pointer identity, its kind,
whether a custom disposer was supplied, and the active flag. -/
structure TrackedResource where
  resource : Nat
  rtype : ResType
  hasCustomCleanup : Bool
  active : Bool
deriving Repr, DecidableEq

/-- The struct `resource_tracker`: `entries` are the array cells
`resources[0..count-1]` in registration order (`count = entries.length`
for a well-formed tracker). -/
structure ResourceTracker where
  entries : List TrackedResource
  count : Nat
deriving Repr, DecidableEq

/-- One execution of the `switch (res->type)` arm of
`resource_tracker_cleanup_all` for a resource: the kind dispatched on,
the resource it was applied to, and - for `custom` - whether a
caller-supplied disposer was actually invoked. -/
inductive CleanupAction where
  | port : Nat → CleanupAction
  | memory : Nat → CleanupAction
  | queue : Nat → CleanupAction
  | thread : Nat → CleanupAction
  | mutex : Nat → CleanupAction
  | pool : Nat → CleanupAction
  | custom : Bool → Nat → CleanupAction
deriving Repr, DecidableEq

/-- resources.c:191-215: the kind-appropriate releaser arm for one
resource. -/
def cleanup_action (r : TrackedResource) : CleanupAction :=
  match r.rtype with
  | .port => .port r.resource
  | .memory => .memory r.resource
  | .queue => .queue r.resource
  | .thread => .thread r.resource
  | .mutex => .mutex r.resource
  | .pool => .pool r.resource
  | .custom => .custom r.hasCustomCleanup r.resource

/-- The loop of resources.c:183-218, iterating `i = count-1` down to `0`:
later-registered entries are visited first; inactive entries are
skipped; visited entries are released and marked inactive. Processes the
tail (later registrations) before the head element. -/
def cleanup_walk : List TrackedResource → List TrackedResource × List CleanupAction
  | [] => ([], [])
  | r :: rest =>
    let q := cleanup_walk rest
    if r.active then
      ({ r with active := false } :: q.1, q.2 ++ [cleanup_action r])
    else
      (r :: q.1, q.2)

/-- resources.c:177-222: walk all entries in reverse registration order,
then set `count := 0`. -/
def resource_tracker_cleanup_all (t : ResourceTracker) :
    ResourceTracker × List CleanupAction :=
  let q := cleanup_walk t.entries
  (⟨q.1, 0⟩, q.2)

/- ====================================================================
   Indexed per-slot-locked pool (src/src/linear_ts_pool.c:90-117)
   ==================================================================== -/

/-- Function `linear_ts_pool_lock_entry`: `used1` is the `active` bitmap as
observed under the pool lock before taking the per-slot lock, `used2` the
bitmap as observed at the double-check after taking it (a concurrent
`linear_ts_pool_remove` may change it in between). Returns
`(success, slot lock held by the caller on return)`. -/
def linear_ts_pool_lock_entry (capacity : Nat) (used1 used2 : List Bool)
    (index : Int) : Bool × Bool :=
  if index < 0 ∨ (capacity : Int) ≤ index then (false, false)
  else if used1.getD index.toNat false = false then (false, false)
  else if used2.getD index.toNat false = false then (false, false)
  else (true, true)

/- ====================================================================
   Concrete states used by witnesses and counterexamples
   ==================================================================== -/

/-- A full one-slot ack pool (`free_head = -1`). -/
def examplePoolFull : Pool AckWaiter := ⟨1, [default], [-1], -1, [true]⟩

/-- An empty one-slot ack pool ready for registration. -/
def examplePoolFree : Pool AckWaiter := ⟨1, [default], [-1], 0, [false]⟩

/-- A waiter whose reply raced in (`received = true`, reply stored). -/
def exampleWaiterRaced : AckWaiter := ⟨7, 3, some 11, 24, some 12, 5, true, false⟩

/-- A one-slot pool holding `exampleWaiterRaced` at slot 0. -/
def examplePoolRaced : Pool AckWaiter := ⟨1, [exampleWaiterRaced], [-1], -1, [true]⟩

/-- A waiter still pending (`received = false`, `cancelled = false`). -/
def exampleWaiterPending : AckWaiter := ⟨7, 3, none, 0, none, 0, false, false⟩

/-- A one-slot pool holding `exampleWaiterPending` at slot 0. -/
def examplePoolPending : Pool AckWaiter := ⟨1, [exampleWaiterPending], [-1], -1, [true]⟩

/-- An ack message carrying correlation id 7. -/
def exampleAckMsg : AckMsg := ⟨21, 7, 24, some 22, 5⟩

/-- A two-slot `Nat` pool with slot 0 in use and slot 1 free. -/
def examplePoolNat : Pool Nat := ⟨2, [10, 20], [1, -1], 1, [true, false]⟩

/-- A client table: clients 1 and 3 active, one NULL slot, client 2
inactive. -/
def exampleServer : ServerState :=
  ⟨[some ⟨1, true⟩, none, some ⟨2, false⟩, some ⟨3, true⟩]⟩

/-- A tracker with an active port, an already-released memory block, and
an active custom resource with a disposer. -/
def exampleTracker : ResourceTracker :=
  ⟨[⟨100, .port, false, true⟩, ⟨200, .memory, false, false⟩,
    ⟨300, .custom, true, true⟩], 3⟩

/-- A per-client send verdict where the send to client 3 fails. -/
def exampleSendStatus (c : ClientInfoS) : Int :=
  if c.id = 3 then IPC_ERROR_SEND_FAILED else IPC_SUCCESS

/-- A malformed protocol message: only one descriptor. -/
def rcvMsgOneDesc : RcvMsg :=
  { msgh_id := MSG_ID_USER 1
    descriptor_count := 1
    payload_is_ool := true
    payload_ptr := some 1
    payload_size := sizeof_internal_payload
    user_ptr := none
    user_size := 0 }

/- ====================================================================
   Helper lemmas on list updates
   ==================================================================== -/

theorem list_getD_set_self {alpha : Type} {l : List alpha} {i : Nat} (v d : alpha)
    (h : i < l.length) : (l.set i v).getD i d = v := by
  rw [List.getD_eq_getD_get?, List.get?_eq_getElem?, List.getElem?_set_eq_of_lt v h]
  rfl

theorem list_getD_set_ne {alpha : Type} {l : List alpha} {i j : Nat} (v d : alpha)
    (h : i ≠ j) : (l.set i v).getD j d = l.getD j d := by
  rw [List.getD_eq_getD_get?, List.getD_eq_getD_get?, List.get?_eq_getElem?,
    List.get?_eq_getElem?, List.getElem?_set_ne h]

theorem list_set_getD_restore {alpha : Type} {l : List alpha} {i : Nat} (d : alpha)
    (h : i < l.length) : l.set i (l.getD i d) = l := by
  induction l generalizing i with
  | nil => simp at h
  | cons a t ih =>
    cases i with
    | zero => simp
    | succ n =>
      simp only [List.set, List.getD_cons_succ, List.cons.injEq, true_and]
      exact ih (Nat.lt_of_succ_lt_succ h)

/- ====================================================================
   C10 - pool_pop frame property
   ==================================================================== -/

/-- Claim C10: for every free-list pool state and every index that is out
of range or whose slot is not in use, `pool_pop` leaves the entire pool
unchanged (every field); in particular popping the same index twice in a
row equals popping it once, so the free list is never corrupted. -/
theorem pool_pop_frame {alpha : Type} (p : Pool alpha) (index : Int) :
    ((index < 0 ∨ (p.capacity : Int) ≤ index ∨
        p.used.getD index.toNat false = false) → pool_pop p index = p)
    ∧ pool_pop (pool_pop p index) index = pool_pop p index := by
  constructor
  · intro h
    simp only [pool_pop, if_pos h]
  · by_cases h : index < 0 ∨ (p.capacity : Int) ≤ index ∨
        p.used.getD index.toNat false = false
    · simp only [pool_pop, if_pos h]
    · push_neg at h
      obtain ⟨h0, hcap, hused⟩ := h
      have hlen : index.toNat < p.used.length := by
        by_contra hge
        rw [List.getD_eq_default _ _ (Nat.le_of_not_lt hge)] at hused
        exact hused rfl
      have hpop : pool_pop p index =
          { p with
            used := p.used.set index.toNat false
            next := p.next.set index.toNat p.free_head
            free_head := index } := by
        simp only [pool_pop]
        rw [if_neg]
        push_neg
        exact ⟨h0, hcap, hused⟩
      rw [hpop]
      simp only [pool_pop]
      rw [if_pos]
      right; right
      exact list_getD_set_self false false hlen

/-- Witness for C10: popping the out-of-range index 5 of the concrete
two-slot pool changes nothing, and popping index 0 is idempotent. -/
theorem pool_pop_frame_witness :
    pool_pop examplePoolNat 5 = examplePoolNat ∧
    pool_pop (pool_pop examplePoolNat 0) 0 = pool_pop examplePoolNat 0 :=
  ⟨(pool_pop_frame examplePoolNat 5).1 (by decide),
   (pool_pop_frame examplePoolNat 0).2⟩

/- ====================================================================
   C9 - linear_ts_pool_lock_entry double-check
   ==================================================================== -/

/-- Claim C9: `linear_ts_pool_lock_entry` never reports success for a
slot that is not active at the re-check after acquiring the per-slot
lock: for every out-of-range index and every slot observed inactive at
the re-check it returns `false`, and on every `false` return the
per-slot lock is not left held by the caller. -/
theorem lock_entry_double_check (capacity : Nat) (used1 used2 : List Bool)
    (index : Int) :
    ((index < 0 ∨ (capacity : Int) ≤ index ∨
        used2.getD index.toNat false = false) →
      (linear_ts_pool_lock_entry capacity used1 used2 index).1 = false)
    ∧ ((linear_ts_pool_lock_entry capacity used1 used2 index).1 = false →
      (linear_ts_pool_lock_entry capacity used1 used2 index).2 = false) := by
  unfold linear_ts_pool_lock_entry
  constructor
  · intro h
    rcases h with h | h | h
    · rw [if_pos (Or.inl h)]
    · rw [if_pos (Or.inr h)]
    · by_cases hb : index < 0 ∨ (capacity : Int) ≤ index
      · rw [if_pos hb]
      · rw [if_neg hb]
        by_cases h1 : used1.getD index.toNat false = false
        · rw [if_pos h1]
        · rw [if_neg h1, if_pos h]
  · intro h
    by_cases hb : index < 0 ∨ (capacity : Int) ≤ index
    · rw [if_pos hb]
    · rw [if_neg hb] at h ⊢
      by_cases h1 : used1.getD index.toNat false = false
      · rw [if_pos h1]
      · rw [if_neg h1] at h ⊢
        by_cases h2 : used2.getD index.toNat false = false
        · rw [if_pos h2]
        · rw [if_neg h2] at h
          simp at h

/-- Witness for C9: a slot deactivated between the first check and the
re-check is refused and its lock is not left held. -/
theorem lock_entry_double_check_witness :
    (linear_ts_pool_lock_entry 2 [true, true] [false, true] 0).1 = false ∧
    (linear_ts_pool_lock_entry 2 [true, true] [false, true] 0).2 = false :=
  ⟨(lock_entry_double_check 2 [true, true] [false, true] 0).1 (by decide),
   (lock_entry_double_check 2 [true, true] [false, true] 0).2
     ((lock_entry_double_check 2 [true, true] [false, true] 0).1 (by decide))⟩

/- ====================================================================
   C5 - user message-id construction
   ==================================================================== -/

/-- Counterexample to claim C5 as stated: the public API accepts any
32-bit message type (the header even invites custom types above 1000),
but `MSG_ID_USER(1001)` has the `ITRN` feature bit set, since
`EXTERNAL_MSG_ID` ORs the type in without masking it to the 8-bit type
field. -/
theorem msg_id_user_claim_false :
    ¬ (IS_THIS_PROTOCOL_MSG (MSG_ID_USER 1001) = true ∧
       HAS_FEATURE_ITRN (MSG_ID_USER 1001) = false) := by
  decide

/-- Claim C5 amended: for every message type that fits the 8-bit type
field (type < 256), `MSG_ID_USER` yields an id whose high 12 bits equal
the protocol magic 0x875 and whose `ITRN` feature bit is clear. -/
theorem msg_id_user_magic_and_external (t : Nat) (h : t < 256) :
    IS_THIS_PROTOCOL_MSG (MSG_ID_USER t) = true ∧
    HAS_FEATURE_ITRN (MSG_ID_USER t) = false := by
  revert t
  decide

/-- Witness for C5 (amended): the concrete type 7 is below 256 and its
user message id carries the magic with `ITRN` clear. -/
theorem msg_id_user_magic_and_external_witness :
    IS_THIS_PROTOCOL_MSG (MSG_ID_USER 7) = true ∧
    HAS_FEATURE_ITRN (MSG_ID_USER 7) = false :=
  msg_id_user_magic_and_external 7 (by decide)

/- ====================================================================
   C4 - receive-loop validation
   ==================================================================== -/

/-- Counterexample to claim C4 as stated: the loop checks
`msgh_descriptor_count < 2`, not `!= 2`, so a protocol message with
three descriptors and a valid OOL payload is not discarded - it reaches
the handler. -/
theorem receive_discard_claim_false :
    IS_THIS_PROTOCOL_MSG rcvMsgThreeDesc.msgh_id = true ∧
    rcvMsgThreeDesc.descriptor_count ≠ 2 ∧
    receive_classify rcvMsgThreeDesc ≠ RcvStep.discard := by
  decide

/-- Claim C4 amended: for every received message carrying the protocol
magic whose descriptor count is less than 2 or whose payload descriptor
is not an OOL descriptor, the receive loop discards the message without
invoking the handler and without aborting the loop. -/
theorem receive_discards_malformed (m : RcvMsg)
    (hmagic : IS_THIS_PROTOCOL_MSG m.msgh_id = true)
    (hbad : m.descriptor_count < 2 ∨ m.payload_is_ool = false) :
    receive_classify m = RcvStep.discard := by
  by_cases h2 : m.descriptor_count < 2
  · simp [receive_classify, hmagic, h2]
  · rcases hbad with hb | hb
    · exact absurd hb h2
    · simp [receive_classify, hmagic, h2, hb]

/-- Witness for C4 (amended): the concrete single-descriptor message is
discarded. -/
theorem receive_discards_malformed_witness :
    receive_classify rcvMsgOneDesc = RcvStep.discard :=
  receive_discards_malformed rcvMsgOneDesc (by decide) (Or.inl (by decide))

/- ====================================================================
   C6 - client send guards outside the connected state
   ==================================================================== -/

/-- Counterexample to claim C6 as stated: on a non-NULL client that is
not connected, called with valid reply out-parameters,
`mach_client_send_with_reply` returns `IPC_ERROR_INVALID_PARAM`
(its guard merges the connectivity check into the parameter check), not
`IPC_ERROR_NOT_CONNECTED`. -/
theorem send_with_reply_not_connected_claim_false :
    mach_client_send_with_reply (some ⟨false⟩) true true KERN_SUCCESS
        none 0 0 none 0 = IPC_ERROR_INVALID_PARAM ∧
    IPC_ERROR_INVALID_PARAM ≠ IPC_ERROR_NOT_CONNECTED := by
  decide

/-- Claim C6 amended: for every client runtime that is not in the
connected state, `mach_client_send` returns `IPC_ERROR_NOT_CONNECTED`,
while `mach_client_send_with_reply` (called with otherwise valid
arguments) returns `IPC_ERROR_INVALID_PARAM`. -/
theorem client_send_guards (c : ClientState) (h : c.connected = false)
    (sendKr kr : Int) (ap : Option Nat) (ast : Int) (asz : Nat)
    (aup : Option Nat) (ausz : Nat) :
    mach_client_send (some c) sendKr = IPC_ERROR_NOT_CONNECTED ∧
    mach_client_send_with_reply (some c) true true kr ap ast asz aup ausz =
      IPC_ERROR_INVALID_PARAM := by
  constructor
  · simp [mach_client_send, h]
  · simp [mach_client_send_with_reply, h]

/-- Witness for C6 (amended): the concrete disconnected client. -/
theorem client_send_guards_witness :
    mach_client_send (some ⟨false⟩) KERN_SUCCESS = IPC_ERROR_NOT_CONNECTED ∧
    mach_client_send_with_reply (some ⟨false⟩) true true KERN_SUCCESS
        none 0 0 none 0 = IPC_ERROR_INVALID_PARAM :=
  client_send_guards ⟨false⟩ rfl KERN_SUCCESS KERN_SUCCESS none 0 0 none 0

/- ====================================================================
   C7 - broadcast
   ==================================================================== -/

theorem foldl_last_error (st : ClientInfoS → Int) (l : List ClientInfoS)
    (acc : Int) :
    l.foldl (fun a c => if st c ≠ IPC_SUCCESS then st c else a) acc =
      ((l.map st).filter (fun x => x ≠ IPC_SUCCESS)).getLastD acc := by
  induction l generalizing acc with
  | nil => rfl
  | cons c t ih =>
    simp only [List.foldl_cons, List.map_cons, List.filter_cons]
    by_cases h : st c ≠ IPC_SUCCESS
    · rw [if_pos h, ih (st c)]
      have hp : decide (st c ≠ IPC_SUCCESS) = true := by simpa using h
      rw [if_pos hp, List.getLastD_cons]
    · rw [if_neg h, ih acc]
      have hp : ¬ decide (st c ≠ IPC_SUCCESS) = true := by simpa using h
      rw [if_neg hp]

/-- Claim C7: `mach_server_broadcast` snapshots the active clients from
the table (taken under the clients lock), sends exactly once to each
snapshotted client in table order (the per-client verdicts do not stop
the iteration), and returns `IPC_SUCCESS` when every send succeeds,
otherwise the status of the last failing send. -/
theorem broadcast_spec (s : ServerState) (st : ClientInfoS → Int) :
    (mach_server_broadcast (some s) st).2 = broadcast_snapshot s.clients ∧
    (mach_server_broadcast (some s) st).1 =
      (((broadcast_snapshot s.clients).map st).filter
        (fun x => x ≠ IPC_SUCCESS)).getLastD IPC_SUCCESS ∧
    ((∀ c ∈ broadcast_snapshot s.clients, st c = IPC_SUCCESS) →
      (mach_server_broadcast (some s) st).1 = IPC_SUCCESS) := by
  refine ⟨rfl, ?_, ?_⟩
  · simp only [mach_server_broadcast]
    exact foldl_last_error st (broadcast_snapshot s.clients) IPC_SUCCESS
  · intro hall
    simp only [mach_server_broadcast]
    rw [foldl_last_error st (broadcast_snapshot s.clients) IPC_SUCCESS]
    have hnil : ((broadcast_snapshot s.clients).map st).filter
        (fun x => x ≠ IPC_SUCCESS) = [] := by
      rw [List.filter_eq_nil_iff]
      intro x hx
      rcases List.mem_map.mp hx with ⟨c, hc, hxc⟩
      simp [← hxc, hall c hc]
    rw [hnil]
    rfl

/-- Witness for C7: on the concrete table, broadcast sends to clients 1
and 3 (exactly the active snapshot) and reports the failing status of
the last send. -/
theorem broadcast_spec_witness :
    (mach_server_broadcast (some exampleServer) exampleSendStatus).2 =
      broadcast_snapshot exampleServer.clients ∧
    (mach_server_broadcast (some exampleServer) exampleSendStatus).1 =
      IPC_ERROR_SEND_FAILED := by
  refine ⟨(broadcast_spec exampleServer exampleSendStatus).1, ?_⟩
  rw [(broadcast_spec exampleServer exampleSendStatus).2.1]
  decide

/- ====================================================================
   C8 - resource tracker ordered teardown
   ==================================================================== -/

theorem cleanup_walk_actions (l : List TrackedResource) :
    (cleanup_walk l).2 =
      (l.reverse.filter (fun r => r.active)).map cleanup_action := by
  induction l with
  | nil => rfl
  | cons r t ih =>
    simp only [cleanup_walk, List.reverse_cons, List.filter_append,
      List.map_append]
    by_cases h : r.active
    · simp [h, ih]
    · simp [h, ih]

theorem cleanup_walk_inactive (l : List TrackedResource) :
    (∀ r ∈ (cleanup_walk l).1, r.active = false) ∧
    (cleanup_walk l).1.length = l.length := by
  induction l with
  | nil => exact ⟨fun r hr => absurd hr (List.not_mem_nil r), rfl⟩
  | cons r t ih =>
    simp only [cleanup_walk]
    by_cases h : r.active
    · simp only [if_pos h]
      refine ⟨?_, by simpa using ih.2⟩
      intro x hx
      rcases List.mem_cons.mp hx with hx | hx
      · rw [hx]
      · exact ih.1 x hx
    · simp only [if_neg h]
      refine ⟨?_, by simpa using ih.2⟩
      intro x hx
      rcases List.mem_cons.mp hx with hx | hx
      · rw [hx]; exact eq_false_of_ne_true h
      · exact ih.1 x hx

/-- Claim C8: `resource_tracker_cleanup_all` applies the kind-appropriate
releaser exactly once to every still-active registered resource, visiting
in reverse registration order (last registered first), and afterwards the
tracker holds no active resources and its count is zero. -/
theorem cleanup_all_spec (t : ResourceTracker) :
    (resource_tracker_cleanup_all t).2 =
      (t.entries.reverse.filter (fun r => r.active)).map cleanup_action ∧
    (resource_tracker_cleanup_all t).1.count = 0 ∧
    (∀ r ∈ (resource_tracker_cleanup_all t).1.entries, r.active = false) ∧
    (resource_tracker_cleanup_all t).1.entries.length = t.entries.length := by
  refine ⟨cleanup_walk_actions t.entries, rfl, ?_, (cleanup_walk_inactive t.entries).2⟩
  exact (cleanup_walk_inactive t.entries).1

/-- Witness for C8: cleaning up the concrete tracker releases the custom
resource 300 first (registered last) and then the port 100, skipping the
inactive memory entry, and zeroes the count. -/
theorem cleanup_all_spec_witness :
    (resource_tracker_cleanup_all exampleTracker).2 =
      [CleanupAction.custom true 300, CleanupAction.port 100] ∧
    (resource_tracker_cleanup_all exampleTracker).1.count = 0 := by
  refine ⟨?_, (cleanup_all_spec exampleTracker).2.1⟩
  rw [(cleanup_all_spec exampleTracker).1]
  decide

/- ====================================================================
   C3 - waiter released on every pre-wait failure
   ==================================================================== -/

theorem register_success_shape (p : Pool AckWaiter) (cid : Nat) (evt : Nat)
    (hcid : cid ≠ 0)
    (hfh0 : 0 ≤ p.free_head) (hfhc : p.free_head < (p.capacity : Int))
    (hdl : p.data.length = p.capacity) (hul : p.used.length = p.capacity) :
    register_ack_waiter p cid true evt =
      ⟨true,
       { p with
         free_head := p.next.getD p.free_head.toNat (-1)
         used := p.used.set p.free_head.toNat true
         data := p.data.set p.free_head.toNat
           ⟨cid, evt, none, 0, none, 0, false, false⟩ },
       p.free_head⟩ := by
  have hne : ¬ p.free_head = -1 := by omega
  have hint : p.free_head.toNat < p.capacity := by omega
  have hpush : pool_push p (none : Option AckWaiter) =
      (p.free_head,
       { p with
         free_head := p.next.getD p.free_head.toNat (-1)
         used := p.used.set p.free_head.toNat true }) := by
    simp only [pool_push, if_neg hne]
  have hget : pool_get
      { p with
        free_head := p.next.getD p.free_head.toNat (-1)
        used := p.used.set p.free_head.toNat true } p.free_head =
      p.data.get? p.free_head.toNat := by
    simp only [pool_get]
    rw [if_neg]
    push_neg
    refine ⟨hfh0, hfhc, ?_⟩
    rw [list_getD_set_self true false (by omega)]
    simp
  have hsome : p.data.get? p.free_head.toNat =
      some (p.data.get ⟨p.free_head.toNat, by omega⟩) :=
    List.get?_eq_get (by omega)
  simp only [register_ack_waiter, if_neg hcid, hpush, if_neg hne, hget, hsome]
  rfl

/-- Claim C3: `protocol_send_with_ack` leaves the waiter pool unchanged
on every failure before the wait. First conjunct: with the pool full it
returns `KERN_FAILURE` without sending and with the pool untouched.
Second conjunct: when the send fails after a successful registration, the
waiter's event is destroyed, its slot is popped, and the pool's `used`
bitmap, free-list links and free head are exactly restored before the
transport error is returned. -/
theorem send_with_ack_prewait_failure :
    (∀ (p : Pool AckWaiter) (ncid : Nat) (eventOk : Bool) (evt : Nat)
        (sendResult : Int),
      p.free_head = -1 →
        send_with_ack_prewait p ncid eventOk evt sendResult =
          ⟨p, ncid + 1, false, [], some KERN_FAILURE, -1, ncid⟩)
    ∧
    (∀ (p : Pool AckWaiter) (ncid : Nat) (evt : Nat) (sendResult : Int),
      ncid ≠ 0 →
      p.data.length = p.capacity →
      p.next.length = p.capacity →
      p.used.length = p.capacity →
      0 ≤ p.free_head →
      p.free_head < (p.capacity : Int) →
      p.used.getD p.free_head.toNat false = false →
      sendResult ≠ KERN_SUCCESS →
        (send_with_ack_prewait p ncid true evt sendResult).earlyReturn =
            some sendResult
        ∧ (send_with_ack_prewait p ncid true evt sendResult).sent = true
        ∧ (send_with_ack_prewait p ncid true evt sendResult).destroyed = [evt]
        ∧ (send_with_ack_prewait p ncid true evt sendResult).pool.used = p.used
        ∧ (send_with_ack_prewait p ncid true evt sendResult).pool.next = p.next
        ∧ (send_with_ack_prewait p ncid true evt sendResult).pool.free_head =
            p.free_head
        ∧ (send_with_ack_prewait p ncid true evt sendResult).pool.capacity =
            p.capacity) := by
  constructor
  · intro p ncid eventOk evt sendResult hfull
    by_cases hcid : ncid = 0
    · simp only [send_with_ack_prewait, register_ack_waiter, if_pos hcid]
      rfl
    · simp only [send_with_ack_prewait, register_ack_waiter, if_neg hcid,
        pool_push, if_pos hfull]
      rfl
  · intro p ncid evt sendResult hcid hdl hnl hul hfh0 hfhc hfree hsend
    have hint : p.free_head.toNat < p.capacity := by omega
    have hreg := register_success_shape p ncid evt hcid hfh0 hfhc hdl hul
    have hwrite : pool_read
        ({ p with
           free_head := p.next.getD p.free_head.toNat (-1)
           used := p.used.set p.free_head.toNat true
           data := p.data.set p.free_head.toNat
             ⟨ncid, evt, none, 0, none, 0, false, false⟩ } : Pool AckWaiter)
        p.free_head =
        ⟨ncid, evt, none, 0, none, 0, false, false⟩ := by
      simp only [pool_read]
      exact list_getD_set_self _ _ (by omega)
    have hpop : pool_pop
        ({ p with
           free_head := p.next.getD p.free_head.toNat (-1)
           used := p.used.set p.free_head.toNat true
           data := p.data.set p.free_head.toNat
             ⟨ncid, evt, none, 0, none, 0, false, false⟩ } : Pool AckWaiter)
        p.free_head =
        { p with
          data := p.data.set p.free_head.toNat
            ⟨ncid, evt, none, 0, none, 0, false, false⟩ } := by
      have hused2 : (p.used.set p.free_head.toNat true).set p.free_head.toNat false
          = p.used := by
        rw [List.set_set]
        rw [show (false : Bool) = p.used.getD p.free_head.toNat false from hfree.symm]
        exact list_set_getD_restore false (by omega)
      have hnext2 : p.next.set p.free_head.toNat (p.next.getD p.free_head.toNat (-1))
          = p.next :=
        list_set_getD_restore (-1) (by omega)
      simp only [pool_pop]
      rw [if_neg]
      · rw [hused2, hnext2]
      · push_neg
        refine ⟨hfh0, hfhc, ?_⟩
        rw [list_getD_set_self true false (by omega)]
        simp
    have hmain : send_with_ack_prewait p ncid true evt sendResult =
        ⟨{ p with
           data := p.data.set p.free_head.toNat
             ⟨ncid, evt, none, 0, none, 0, false, false⟩ },
         ncid + 1, true, [evt], some sendResult, -1, ncid⟩ := by
      simp only [send_with_ack_prewait, hreg]
      rw [if_neg (show ¬(true = false) by simp), if_pos hsend]
      simp only [hwrite, hpop]
    rw [hmain]
    exact ⟨rfl, rfl, rfl, rfl, rfl, rfl, rfl⟩

/-- Witness for C3: the full one-slot pool is refused without sending;
on the free one-slot pool a failed send (verdict 7) destroys event 9,
restores the pool bitmap, links and free head, and surfaces the
transport error. -/
theorem send_with_ack_prewait_failure_witness :
    send_with_ack_prewait examplePoolFull 1 true 9 KERN_SUCCESS =
      ⟨examplePoolFull, 2, false, [], some KERN_FAILURE, -1, 1⟩ ∧
    ((send_with_ack_prewait examplePoolFree 1 true 9 7).earlyReturn = some 7
     ∧ (send_with_ack_prewait examplePoolFree 1 true 9 7).sent = true
     ∧ (send_with_ack_prewait examplePoolFree 1 true 9 7).destroyed = [9]
     ∧ (send_with_ack_prewait examplePoolFree 1 true 9 7).pool.used =
         examplePoolFree.used
     ∧ (send_with_ack_prewait examplePoolFree 1 true 9 7).pool.next =
         examplePoolFree.next
     ∧ (send_with_ack_prewait examplePoolFree 1 true 9 7).pool.free_head =
         examplePoolFree.free_head
     ∧ (send_with_ack_prewait examplePoolFree 1 true 9 7).pool.capacity =
         examplePoolFree.capacity) :=
  ⟨send_with_ack_prewait_failure.1 examplePoolFull 1 true 9 KERN_SUCCESS (by decide),
   send_with_ack_prewait_failure.2 examplePoolFree 1 9 7 (by decide) (by decide)
     (by decide) (by decide) (by decide) (by decide) (by decide) (by decide)⟩

/- ====================================================================
   Shared facts about pool_pop
   ==================================================================== -/

theorem pool_pop_data {alpha : Type} (p : Pool alpha) (index : Int) :
    (pool_pop p index).data = p.data := by
  unfold pool_pop
  split <;> rfl

theorem pool_pop_capacity {alpha : Type} (p : Pool alpha) (index : Int) :
    (pool_pop p index).capacity = p.capacity := by
  unfold pool_pop
  split <;> rfl

theorem pool_pop_inactive {alpha : Type} (p : Pool alpha) (slot : Nat)
    (hcap : slot < p.capacity) :
    pool_is_active (pool_pop p (slot : Int)) (slot : Int) = false := by
  unfold pool_pop
  by_cases h : ((slot : Int) < 0 ∨ (p.capacity : Int) ≤ (slot : Int) ∨
      p.used.getD ((slot : Int)).toNat false = false)
  · rw [if_pos h]
    rcases h with h | h | h
    · exact absurd h (by omega)
    · exact absurd h (by omega)
    · simp only [pool_is_active]
      rw [h]
      simp
  · rw [if_neg h]
    push_neg at h
    have hlen : ((slot : Int)).toNat < p.used.length := by
      by_contra hc
      rw [List.getD_eq_default _ _ (Nat.le_of_not_lt hc)] at h
      exact h.2.2 rfl
    simp only [pool_is_active]
    rw [list_getD_set_self false false hlen]
    simp

theorem pool_pop_used_other {alpha : Type} (p : Pool alpha) (index : Int)
    (j : Nat) (hne : j ≠ index.toNat) :
    (pool_pop p index).used.getD j false = p.used.getD j false := by
  unfold pool_pop
  split
  · rfl
  · exact list_getD_set_ne false false (fun he => hne he.symm)

/- ====================================================================
   C2 - success path returns exactly the stored reply
   ==================================================================== -/

/-- Claim C2: `protocol_send_with_ack` returns `KERN_SUCCESS` only when
the waiter, re-checked under the ack lock after the wait, shows
`received` and not `cancelled` (first conjunct); and when the waiter was
filled in by `handle_ack_message` matching the correlation id, the ack
payload, size, user payload and user size handed to the caller are
exactly the values `handle_ack_message` stored (second conjunct). -/
theorem ack_success_matches_handle :
    (∀ (p : Pool AckWaiter) (slot : Int) (got_reply : Bool),
      (ack_wake p slot got_reply).result = KERN_SUCCESS →
        got_reply = true
        ∧ (pool_read p slot).received = true
        ∧ (pool_read p slot).cancelled = false
        ∧ (ack_wake p slot got_reply).ack_payload = (pool_read p slot).reply_payload
        ∧ (ack_wake p slot got_reply).ack_size = (pool_read p slot).reply_size
        ∧ (ack_wake p slot got_reply).ack_user_payload =
            (pool_read p slot).reply_user_payload
        ∧ (ack_wake p slot got_reply).ack_user_size =
            (pool_read p slot).reply_user_size)
    ∧
    (∀ (p q : Pool AckWaiter) (m : AckMsg) (i : Nat),
      handle_ack_message p m = (true, q) →
      find_matching_waiter p m.cid = some i →
      i < p.data.length →
        (ack_wake q (i : Int) true).result = KERN_SUCCESS
        ∧ (ack_wake q (i : Int) true).ack_payload = some m.payload_ptr
        ∧ (ack_wake q (i : Int) true).ack_size = m.payload_size
        ∧ (ack_wake q (i : Int) true).ack_user_payload = m.user_ptr
        ∧ (ack_wake q (i : Int) true).ack_user_size = m.user_size) := by
  constructor
  · intro p slot got_reply hres
    by_cases hcond : (got_reply && (pool_read p slot).received &&
        !(pool_read p slot).cancelled) = true
    · have hflags := hcond
      simp only [Bool.and_eq_true, Bool.not_eq_true'] at hflags
      refine ⟨hflags.1.1, hflags.1.2, hflags.2, ?_, ?_, ?_, ?_⟩ <;>
        simp only [ack_wake, if_pos hcond]
    · have hto : (ack_wake p slot got_reply).result = KERN_OPERATION_TIMED_OUT := by
        simp only [ack_wake, if_neg hcond]
      rw [hto] at hres
      exact absurd hres (by decide)
  · intro p q m i hhandle hfind hlen
    by_cases hc0 : m.cid = 0
    · rw [handle_ack_message, if_pos hc0] at hhandle
      exact absurd (congrArg Prod.fst hhandle) (by simp)
    · simp only [handle_ack_message, if_neg hc0, hfind] at hhandle
      by_cases hcanc : (p.data.getD i default).cancelled = true
      · rw [if_pos hcanc] at hhandle
        exact absurd (congrArg Prod.fst hhandle) (by simp)
      · rw [if_neg hcanc] at hhandle
        have hq : q = pool_write p (i : Int)
            { p.data.getD i default with
              reply_payload := some m.payload_ptr
              reply_size := m.payload_size
              reply_user_payload := m.user_ptr
              reply_user_size := m.user_size
              received := true } := (congrArg Prod.snd hhandle).symm
        subst hq
        have hread : pool_read
            (pool_write p (i : Int)
              { p.data.getD i default with
                reply_payload := some m.payload_ptr
                reply_size := m.payload_size
                reply_user_payload := m.user_ptr
                reply_user_size := m.user_size
                received := true }) (i : Int) =
            { p.data.getD i default with
              reply_payload := some m.payload_ptr
              reply_size := m.payload_size
              reply_user_payload := m.user_ptr
              reply_user_size := m.user_size
              received := true } := by
          simp only [pool_read, pool_write, Int.toNat_natCast]
          exact list_getD_set_self _ _ hlen
        have hfalse : (p.data.getD i default).cancelled = false :=
          Bool.not_eq_true _ ▸ hcanc
        have hfalse2 : (p.data[i]?.getD default).cancelled = false := by
          rw [List.getD_eq_getD_get?, List.get?_eq_getElem?] at hfalse
          exact hfalse
        refine ⟨?_, ?_, ?_, ?_, ?_⟩ <;>
          · simp only [ack_wake, hread]
            rw [if_pos (by simp [hfalse2])]

/- ====================================================================
   C1 - timeout path: cancel, release raced-in reply, reject late acks
   ==================================================================== -/

/-- Claim C1: when `protocol_send_with_ack` reports the timeout verdict,
then (under the ack lock) the waiter's `cancelled` flag was set to true
before the slot was freed - the freed slot's cell still carries
`cancelled = true` and the slot is no longer active; if a reply had
already been stored (`received = true`), the timing-out sender itself
released the reply payload (and the reply user payload when present with
non-zero size); and any ack matched against the resulting pool with this
correlation id is rejected by `handle_ack_message` (`false`, pool
untouched), so the receive loop releases that ack's OOL payload. The
uniqueness hypothesis `huniq` reflects that correlation ids are issued
monotonically, so no other live waiter carries this one. -/
theorem ack_timeout_cancels_and_rejects (p : Pool AckWaiter) (slot : Nat)
    (got_reply : Bool)
    (hcap : slot < p.capacity)
    (hdata : p.data.length = p.capacity)
    (hres : (ack_wake p (slot : Int) got_reply).result = KERN_OPERATION_TIMED_OUT)
    (huniq : ∀ j, j < p.capacity → j ≠ slot →
      (p.data.getD j default).correlation_id ≠
        (pool_read p (slot : Int)).correlation_id) :
    (pool_read (ack_wake p (slot : Int) got_reply).pool (slot : Int)).cancelled = true
    ∧ pool_is_active (ack_wake p (slot : Int) got_reply).pool (slot : Int) = false
    ∧ (∀ ptr, (pool_read p (slot : Int)).received = true →
        (pool_read p (slot : Int)).reply_payload = some ptr →
        (ptr, (pool_read p (slot : Int)).reply_size) ∈
          (ack_wake p (slot : Int) got_reply).released)
    ∧ (∀ uptr, (pool_read p (slot : Int)).received = true →
        (pool_read p (slot : Int)).reply_payload ≠ none →
        (pool_read p (slot : Int)).reply_user_payload = some uptr →
        (pool_read p (slot : Int)).reply_user_size ≠ 0 →
        (uptr, (pool_read p (slot : Int)).reply_user_size) ∈
          (ack_wake p (slot : Int) got_reply).released)
    ∧ (∀ m : AckMsg, m.cid = (pool_read p (slot : Int)).correlation_id →
        handle_ack_message (ack_wake p (slot : Int) got_reply).pool m =
          (false, (ack_wake p (slot : Int) got_reply).pool)) := by
  by_cases hcond : (got_reply && (pool_read p (slot : Int)).received &&
      !(pool_read p (slot : Int)).cancelled) = true
  · have h0 : (ack_wake p (slot : Int) got_reply).result = KERN_SUCCESS := by
      simp only [ack_wake, if_pos hcond]
    rw [h0] at hres
    exact absurd hres (by decide)
  · have hpool : (ack_wake p (slot : Int) got_reply).pool =
        pool_pop (pool_write p (slot : Int)
          { pool_read p (slot : Int) with cancelled := true }) (slot : Int) := by
      simp only [ack_wake, if_neg hcond]
    have hrel : (ack_wake p (slot : Int) got_reply).released =
        (if (pool_read p (slot : Int)).received = true ∧
            (pool_read p (slot : Int)).reply_payload ≠ none then
          ((pool_read p (slot : Int)).reply_payload.getD 0,
            (pool_read p (slot : Int)).reply_size) ::
            (if (pool_read p (slot : Int)).reply_user_payload ≠ none ∧
                (pool_read p (slot : Int)).reply_user_size ≠ 0 then
              [((pool_read p (slot : Int)).reply_user_payload.getD 0,
                 (pool_read p (slot : Int)).reply_user_size)]
            else [])
        else []) := by
      simp only [ack_wake, if_neg hcond]
    refine ⟨?_, ?_, ?_, ?_, ?_⟩
    · rw [hpool]
      simp only [pool_read, pool_pop_data, pool_write, Int.toNat_natCast]
      rw [list_getD_set_self _ _ (by omega)]
    · rw [hpool]
      exact pool_pop_inactive _ slot hcap
    · intro ptr hrecv hptr
      have hcr : (pool_read p (slot : Int)).received = true ∧
          (pool_read p (slot : Int)).reply_payload ≠ none := ⟨hrecv, by simp [hptr]⟩
      rw [hrel, if_pos hcr, hptr]
      simp
    · intro uptr hrecv hptr hu husz
      have hcr : (pool_read p (slot : Int)).received = true ∧
          (pool_read p (slot : Int)).reply_payload ≠ none := ⟨hrecv, hptr⟩
      have hcu : (pool_read p (slot : Int)).reply_user_payload ≠ none ∧
          (pool_read p (slot : Int)).reply_user_size ≠ 0 := ⟨by simp [hu], husz⟩
      rw [hrel, if_pos hcr, if_pos hcu, hu]
      simp
    · intro m hmcid
      rw [hpool]
      have hcap2 : (pool_pop (pool_write p (slot : Int)
          { pool_read p (slot : Int) with cancelled := true }) (slot : Int)).capacity
          = p.capacity := by
        rw [pool_pop_capacity]
        rfl
      by_cases hc0 : m.cid = 0
      · rw [handle_ack_message, if_pos hc0]
      · have hfind : find_matching_waiter
            (pool_pop (pool_write p (slot : Int)
              { pool_read p (slot : Int) with cancelled := true }) (slot : Int))
            m.cid = none := by
          unfold find_matching_waiter
          refine List.find?_eq_none.mpr ?_
          intro j hj
          rw [hcap2] at hj
          have hjcap : j < p.capacity := List.mem_range.mp hj
          by_cases hjs : j = slot
          · subst hjs
            have hact := pool_pop_inactive
              (pool_write p (j : Int)
                { pool_read p (j : Int) with cancelled := true }) j hcap
            rw [hact]
            simp
          · have hdat : (pool_pop (pool_write p (slot : Int)
                { pool_read p (slot : Int) with cancelled := true })
                  (slot : Int)).data.getD j default = p.data.getD j default := by
              rw [pool_pop_data]
              simp only [pool_write, Int.toNat_natCast]
              exact list_getD_set_ne _ _ (fun he => hjs he.symm)
            rw [hdat]
            have hne := huniq j hjcap hjs
            rw [← hmcid] at hne
            have hne2 : ¬ (p.data[j]?.getD default).correlation_id = m.cid := by
              simpa using hne
            simp [hne2]
        rw [handle_ack_message, if_neg hc0, hfind]

/-- Witness for C1: the concrete one-slot pool whose waiter's reply raced
in while the event wait timed out - the slot ends cancelled and freed,
both payloads are released by the sender, and a late ack carrying
correlation id 7 is rejected against the resulting pool. -/
theorem ack_timeout_cancels_and_rejects_witness :
    (pool_read (ack_wake examplePoolRaced 0 false).pool 0).cancelled = true
    ∧ pool_is_active (ack_wake examplePoolRaced 0 false).pool 0 = false
    ∧ (11, 24) ∈ (ack_wake examplePoolRaced 0 false).released
    ∧ (12, 5) ∈ (ack_wake examplePoolRaced 0 false).released
    ∧ handle_ack_message (ack_wake examplePoolRaced 0 false).pool exampleAckMsg =
        (false, (ack_wake examplePoolRaced 0 false).pool) := by
  have h := ack_timeout_cancels_and_rejects examplePoolRaced 0 false
    (by decide) (by decide) (by decide)
    (by
      intro j hj hne
      exfalso
      apply hne
      have h1 : j < 1 := hj
      omega)
  exact ⟨h.1, h.2.1, h.2.2.1 11 (by decide) (by decide),
    h.2.2.2.1 12 (by decide) (by decide) (by decide) (by decide),
    h.2.2.2.2 exampleAckMsg (by decide)⟩

/-- Witness for C2: on the concrete pending pool, the handled ack is
extracted by the success path exactly as stored. -/
theorem ack_success_matches_handle_witness :
    (ack_wake (handle_ack_message examplePoolPending exampleAckMsg).2 0 true).result =
      KERN_SUCCESS
    ∧ (ack_wake (handle_ack_message examplePoolPending exampleAckMsg).2 0 true).ack_payload =
        some exampleAckMsg.payload_ptr
    ∧ (ack_wake (handle_ack_message examplePoolPending exampleAckMsg).2 0 true).ack_size =
        exampleAckMsg.payload_size
    ∧ (ack_wake (handle_ack_message examplePoolPending exampleAckMsg).2 0 true).ack_user_payload =
        exampleAckMsg.user_ptr
    ∧ (ack_wake (handle_ack_message examplePoolPending exampleAckMsg).2 0 true).ack_user_size =
        exampleAckMsg.user_size :=
  ack_success_matches_handle.2 examplePoolPending
    (handle_ack_message examplePoolPending exampleAckMsg).2 exampleAckMsg 0
    (by decide) (by decide) (by decide)

end MachIpc
